import Mathlib

/-!
Verification of the IdeaFly Credential and Identity Resolution Engine.

This file gives a shallow embedding, in Lean 4, of the authentication core of
the repository (backend/src/core/security.py, backend/src/auth/service.py,
backend/src/auth/repository.py, backend/src/auth/oauth_service.py,
backend/src/auth/models.py) and proves or refutes the specification claims
about it.

Modelling conventions:
* Python dictionaries used as records with string keys (the result of
  validate_password_strength) are modelled as association lists, so that a
  lookup of a missing key (Python KeyError) is observable.
* Python exceptions are modelled by the inductive type PyErr; raising is
  modelled by Except PyErr.
* The database session is modelled by an explicit DB value (lists of users
  and oauth profiles); commit enforces the declared schema constraints of
  models.py (unique email, unique (provider, provider_user_id), the
  user_password_provider_check check constraint) and a failed commit rolls
  the session back, exactly as SQLAlchemy surfaces an IntegrityError.
* bcrypt hashing/verification (passlib) is kept abstract: functions that call
  it take the hash function or the verification oracle as a parameter.
* Timestamps (created_at / updated_at) are omitted: no claim depends on them,
  and the only mutation of a claim-relevant flow that touches them is
  update_user_last_login, which changes nothing else.
-/

deriving instance DecidableEq for Except

namespace IdeaFly

/-- Character-list implementation of Python str.lower. -/
def strLower (s : String) : String := ⟨s.data.map Char.toLower⟩

/-- Drop whitespace from both ends of a character list. -/
def trimChars (l : List Char) : List Char :=
  ((l.dropWhile Char.isWhitespace).reverse.dropWhile Char.isWhitespace).reverse

/-- Character-list implementation of Python str.strip. -/
def strTrim (s : String) : String := ⟨trimChars s.data⟩

/-- Values stored in the dictionary returned by validate_password_strength. -/
inductive PyVal where
  | pbool (b : Bool)
  | pstr (s : String)
deriving DecidableEq, Repr

/-- Python truthiness for the values that occur in those dictionaries. -/
def PyVal.truthy : PyVal → Bool
  | .pbool b => b
  | .pstr s => s ≠ ""

/-- Lookup in a Python dict modelled as an association list; a result of none
corresponds to a Python KeyError on subscript access. -/
def dictLookup : List (String × PyVal) → String → Option PyVal
  | [], _ => none
  | (k, v) :: rest, key => if k = key then some v else dictLookup rest key

/-- Exception taxonomy of core/exceptions.py, restricted to the constructors
the embedded flows can raise, plus the raw Python errors (KeyError,
ValueError) that escape the application classes. -/
inductive PyErr where
  | keyError (key : String)
  | valueError (message : String)
  | validation (message : String)
  | invalidCredentials (message : String)
  | authentication (message : String)
  | accountDisabled (message : String)
  | emailExists (email : String)
  | userNotFound (ident : String)
  | database (operation : String)
deriving DecidableEq, Repr

/-- Substring test on character lists: the Python test (needle in haystack). -/
def listContainsSub (needle hay : List Char) : Bool :=
  (List.range (hay.length + 1)).any (fun i => needle.isPrefixOf (hay.drop i))

/-- The Python test (needle in haystack) on strings. -/
def strContains (hay needle : String) : Bool :=
  listContainsSub needle.data hay.data

/-- MIN_PASSWORD_LENGTH from core/security.py. -/
def MIN_PASSWORD_LENGTH : Nat := 8

/-- MAX_PASSWORD_LENGTH from core/security.py. -/
def MAX_PASSWORD_LENGTH : Nat := 128

/-- The deny-list of weak substrings from core/security.py. -/
def weak_patterns : List String := ["password", "12345", "qwerty", "admin", "letmein"]

/-- Embedding of core/security.py validate_password_strength.  The Python
function returns the dict with keys "valid" and "message"; the association
list records exactly those keys. -/
def validate_password_strength (password : String) : List (String × PyVal) :=
  if password.length = 0 then
    [("valid", .pbool false), ("message", .pstr "Password is required")]
  else if password.length < MIN_PASSWORD_LENGTH then
    [("valid", .pbool false),
     ("message", .pstr "Password must be at least 8 characters long")]
  else if password.length > MAX_PASSWORD_LENGTH then
    [("valid", .pbool false),
     ("message", .pstr "Password cannot exceed 128 characters")]
  else if ¬ password.data.any Char.isAlpha then
    [("valid", .pbool false),
     ("message", .pstr "Password must contain at least one letter")]
  else if ¬ password.data.any Char.isDigit then
    [("valid", .pbool false),
     ("message", .pstr "Password must contain at least one number")]
  else if weak_patterns.any
      (fun p => listContainsSub p.data (password.data.map Char.toLower)) then
    [("valid", .pbool false),
     ("message", .pstr "Password contains common weak patterns")]
  else
    [("valid", .pbool true),
     ("message", .pstr "Password meets security requirements")]

/-- Embedding of AuthenticationService._validate_password_strength from
auth/service.py.  The Python code subscripts the result dictionary with the
key "is_valid"; validate_password_strength populates the key "valid", so the
subscript access raises KeyError. -/
def service_validate_password_strength (password : String) : Except PyErr Unit :=
  match dictLookup (validate_password_strength password) "is_valid" with
  | none => .error (.keyError "is_valid")
  | some v =>
      if ¬ v.truthy then
        .error (.validation "Validation failed for field: password")
      else
        .ok ()

/-- AuthProvider enum from auth/models.py (EMAIL, GOOGLE, MIXED).  The spec
calls the GOOGLE value EXTERNAL. -/
inductive AuthProvider where
  | email
  | google
  | mixed
deriving DecidableEq, Repr

/-- User row of auth/models.py (timestamps omitted, see the header note). -/
structure User where
  id : Nat
  email : String
  name : String
  hashed_password : Option String
  auth_provider : AuthProvider
  is_active : Bool
deriving DecidableEq, Repr

/-- OAuthProfile row of auth/models.py (timestamps and the nullable
access_token_hash omitted; neither is read by any embedded flow). -/
structure OAuthProfile where
  id : Nat
  user_id : Nat
  provider : String
  provider_user_id : String
deriving DecidableEq, Repr

/-- The relational state the engine mutates: the users and oauth_profiles
tables. -/
structure DB where
  users : List User
  profiles : List OAuthProfile
deriving DecidableEq, Repr

/-- The empty database. -/
def DB.empty : DB := ⟨[], []⟩

/-- Email normalisation applied throughout repository.py:
email.lower().strip(). -/
def normEmail (email : String) : String := strTrim (strLower email)

/-- Which uniqueness or check constraint a commit violated; the Python code
inspects the IntegrityError message, which names the constraint (and for the
user email constraint contains the word email). -/
inductive IntegrityKind where
  | emailUnique
  | oauthUnique
  | checkViolation
deriving DecidableEq, Repr

/-- Whether str(IntegrityError) for this violation matches the handler test
in repository.py: "user_email_unique" in str(e) or "email" in str(e).lower().
The user email unique violation names the user_email_unique constraint; the
oauth_provider_user_unique violation message names only that constraint and
the (provider, provider_user_id) key. -/
def IntegrityKind.mentionsEmail : IntegrityKind → Bool
  | .emailUnique => true
  | .oauthUnique => false
  | .checkViolation => true

/-- The user_password_provider_check check constraint of models.py:
password presence must match the auth provider. -/
def passwordProviderCheck (u : User) : Bool :=
  match u.auth_provider, u.hashed_password with
  | .email, some _ => true
  | .google, none => true
  | .mixed, some _ => true
  | _, _ => false

/-- All elements of the list are pairwise distinct under the given key. -/
def pairwiseDistinctBy {α β : Type} [DecidableEq β] (key : α → β) : List α → Bool
  | [] => true
  | x :: xs => xs.all (fun y => key y ≠ key x) && pairwiseDistinctBy key xs

/-- Commit-time constraint validation, mirroring the order in which the rows
are flushed (users before oauth profiles): unique email on users, the
password/provider check constraint, then the (provider, provider_user_id)
uniqueness on oauth profiles.  none means the commit succeeds. -/
def commitCheck (db : DB) : Option IntegrityKind :=
  if pairwiseDistinctBy User.email db.users = false then some .emailUnique
  else if db.users.all passwordProviderCheck = false then some .checkViolation
  else if pairwiseDistinctBy (fun p : OAuthProfile => (p.provider, p.provider_user_id))
      db.profiles = false then some .oauthUnique
  else none

/-- UserRepository.email_exists: any user row (active or not) with the
normalised email. -/
def email_exists (db : DB) (email : String) : Bool :=
  db.users.any (fun u => u.email = normEmail email)

/-- UserRepository.get_active_user_by_email: first user filtered by
normalised email and is_active. -/
def get_active_user_by_email (db : DB) (email : String) : Option User :=
  db.users.find? (fun u => u.email = normEmail email && u.is_active)

/-- UserRepository lookup of an OAuthProfile by (provider, provider_user_id),
the first query of authenticate_oauth_user. -/
def findOAuthProfile (db : DB) (provider subject : String) : Option OAuthProfile :=
  db.profiles.find? (fun p => p.provider = provider && p.provider_user_id = subject)

/-- Relationship navigation oauth_profile.user: the user row owning the
profile. -/
def findUserById (db : DB) (uid : Nat) : Option User :=
  db.users.find? (fun u => u.id = uid)

/-- Embedding of core/security.py hash_password.  The bcrypt call itself is
the abstract parameter hashFn; the guards are the ones in the source. -/
def hash_password (hashFn : String → String) (password : String) : Except PyErr String :=
  if password.length = 0 then .error (.valueError "Password cannot be empty")
  else if password.length < MIN_PASSWORD_LENGTH then
    .error (.valueError "Password must be at least 8 characters long")
  else if password.length > MAX_PASSWORD_LENGTH then
    .error (.valueError "Password cannot exceed 128 characters")
  else .ok (hashFn password)

/-- Embedding of core/security.py verify_password: empty inputs are false,
otherwise the abstract bcrypt oracle decides; internal errors of the oracle
are out of scope (the source maps them to false as well). -/
def verify_password (verify : String → String → Bool) (plain : String)
    (hashed : Option String) : Bool :=
  match hashed with
  | none => false
  | some h => if plain = "" ∨ h = "" then false else verify plain h

/-- Embedding of core/security.py needs_rehash: empty hashes are false, the
passlib needs_update decision is the abstract oracle needsUpdate. -/
def needs_rehash (needsUpdate : String → Bool) (hashed : String) : Bool :=
  if hashed = "" then false else needsUpdate hashed

/-- Embedding of UserRepository.authenticate_user: active user by email, a
missing password hash (OAuth-only account) short-circuits to None before any
password verification, then the bcrypt check. -/
def repo_authenticate_user (verify : String → String → Bool) (db : DB)
    (email password : String) : Option User :=
  match get_active_user_by_email db email with
  | none => none
  | some u =>
      match u.hashed_password with
      | none => none
      | some h => if verify_password verify password (some h) then some u else none

/-- The .value attribute of the AuthProvider enum. -/
def AuthProvider.value : AuthProvider → String
  | .email => "email"
  | .google => "google"
  | .mixed => "mixed"

/-- JSON-ish claim values carried in a JWT payload. -/
inductive JVal where
  | jstr (s : String)
  | jnum (n : Nat)
deriving DecidableEq, Repr

/-- Python dict update of a single key: replace the entry in place when the
key is present, append it otherwise (dict insertion-order semantics). -/
def alSet : List (String × JVal) → String → JVal → List (String × JVal)
  | [], k, v => [(k, v)]
  | (k', v') :: rest, k, v =>
      if k' = k then (k, v) :: rest else (k', v') :: alSet rest k v

/-- Lookup of a key in a JWT payload. -/
def alLookup : List (String × JVal) → String → Option JVal
  | [], _ => none
  | (k, v) :: rest, key => if k = key then some v else alLookup rest key

/-- A signed compact token: the encoded payload plus the signing key it was
signed with.  Signature verification is modelled as key equality, which is
the correct abstraction of a shared-secret HMAC for these claims. -/
structure Jwt where
  payload : List (String × JVal)
  key : Nat
deriving DecidableEq, Repr

/-- Embedding of core/security.py create_access_token: rejects an empty
claims dict with ValueError, then copies the claims and overwrites/adds the
exp, iat and type entries (in that dict-literal order) before signing.
Times are epoch seconds; ttl is the expires_delta in seconds. -/
def create_access_token (data : List (String × JVal)) (key : Nat) (now ttl : Nat) :
    Except PyErr Jwt :=
  if data.isEmpty then .error (.valueError "Token data cannot be empty")
  else
    .ok ⟨alSet (alSet (alSet data "exp" (.jnum (now + ttl))) "iat" (.jnum now))
          "type" (.jstr "bearer"), key⟩

/-- Embedding of core/security.py decode_token on top of jose jwt.decode:
a wrong key is an invalid-token error; a present exp claim strictly in the
past is an expired-token error; otherwise the payload is returned. -/
def decode_token (t : Jwt) (key : Nat) (now : Nat) : Except PyErr (List (String × JVal)) :=
  if t.key ≠ key then .error (.authentication "Token validation failed: signature")
  else
    match alLookup t.payload "exp" with
    | some (.jnum e) =>
        if e < now then .error (.authentication "Token validation failed: expired")
        else .ok t.payload
    | _ => .ok t.payload

/-- Embedding of core/security.py verify_token: the safe variant returning
None instead of raising. -/
def verify_token (t : Jwt) (key : Nat) (now : Nat) : Option (List (String × JVal)) :=
  match decode_token t key now with
  | .ok p => some p
  | .error _ => none

/-- Embedding of AuthenticationService._create_token_for_user: the claims
dict built for a user plus create_access_token. -/
def create_token_for_user (u : User) (authMethod : String) (key : Nat) (now ttl : Nat) :
    Except PyErr Jwt :=
  create_access_token
    [("sub", .jstr (toString u.id)), ("email", .jstr u.email),
     ("name", .jstr u.name), ("auth_method", .jstr authMethod),
     ("auth_provider", .jstr u.auth_provider.value)] key now ttl

/-- Embedding of AuthenticationService.authenticate_user (password login).
The repository returns None for every failure cause; the service converts
None into InvalidCredentialsException with its default message; any other
escaping exception would be wrapped as DatabaseException("user
authentication").  update_user_last_login only touches updated_at, which the
model omits. -/
def service_authenticate_user (verify : String → String → Bool) (db : DB)
    (email password : String) (key now ttl : Nat) : DB × Except PyErr (User × Jwt) :=
  match repo_authenticate_user verify db email password with
  | none => (db, .error (.invalidCredentials "Email or password is incorrect"))
  | some u =>
      match create_token_for_user u "password" key now ttl with
      | .ok t => (db, .ok (u, t))
      | .error _ => (db, .error (.database "user authentication"))

/-- Embedding of UserRepository.validate_registration_data: only the email
uniqueness check (the remaining validation is delegated to Pydantic). -/
def validate_registration_data (db : DB) (email : String) : Except PyErr Unit :=
  if email_exists db email then .error (.emailExists email) else .ok ()

/-- Embedding of UserRepository.create_user: email uniqueness check, bcrypt
hash (whose ValueError would be wrapped by the generic handler as
DatabaseException("user creation")), insert and commit; an IntegrityError
whose message mentions email becomes EmailExistsException, any other
becomes DatabaseException("user creation"); a failed commit rolls back. -/
def repo_create_user (hashFn : String → String) (db : DB)
    (name email password : String) (uid : Nat) : DB × Except PyErr User :=
  if email_exists db email then (db, .error (.emailExists email))
  else
    match hash_password hashFn password with
    | .error _ => (db, .error (.database "user creation"))
    | .ok h =>
        let u : User := ⟨uid, normEmail email, strTrim name, some h, .email, true⟩
        let db2 : DB := ⟨db.users ++ [u], db.profiles⟩
        match commitCheck db2 with
        | none => (db2, .ok u)
        | some k =>
            (db, .error (if k.mentionsEmail then .emailExists email
                         else .database "user creation"))

/-- Which exceptions service.register_user re-raises unchanged; everything
else is wrapped as DatabaseException("user registration"). -/
def wrapRegisterErr (e : PyErr) : PyErr :=
  match e with
  | .emailExists em => .emailExists em
  | .validation m => .validation m
  | .database op => .database op
  | _ => .database "user registration"

/-- Embedding of AuthenticationService.register_user: password strength
check (service_validate_password_strength), email uniqueness, user creation,
token issuance; exceptions outside the re-raised set are wrapped as
DatabaseException("user registration"). -/
def service_register_user (hashFn : String → String) (db : DB)
    (name email password : String) (uid : Nat) (key now ttl : Nat) :
    DB × Except PyErr (User × Jwt) :=
  match service_validate_password_strength password with
  | .error e => (db, .error (wrapRegisterErr e))
  | .ok () =>
      match validate_registration_data db email with
      | .error e => (db, .error (wrapRegisterErr e))
      | .ok () =>
          match repo_create_user hashFn db name email password uid with
          | (db', .error e) => (db', .error (wrapRegisterErr e))
          | (db', .ok u) =>
              match create_token_for_user u "password" key now ttl with
              | .ok t => (db', .ok (u, t))
              | .error e => (db', .error (wrapRegisterErr e))

/-- The user row create_oauth_user builds: no password, auth provider
GOOGLE, active. -/
def new_oauth_user (email name : String) (uid : Nat) : User :=
  ⟨uid, normEmail email, strTrim name, none, .google, true⟩

/-- The candidate state create_oauth_user flushes at commit: the new user
row plus the new oauth profile row, on top of whatever a concurrent request
committed in between. -/
def oauth_create_state (db : DB) (provider email name subj : String)
    (uid pid : Nat) : DB :=
  ⟨db.users ++ [new_oauth_user email name uid],
   db.profiles ++ [⟨pid, uid, provider, subj⟩]⟩

/-- Embedding of UserRepository.create_oauth_user as invoked by the OAuth
service (oauth_provider_type "google", auth_provider GOOGLE, no password).
The conc parameter is the set of writes a concurrent request commits between
the email_exists check of this request and its own commit; the sequential
execution is conc = id.  On an IntegrityError the session is rolled back (the
concurrent writes survive, the rows of this request do not) and the handler in
the source raises EmailExistsException when the message mentions email,
DatabaseException("OAuth user creation") otherwise. -/
def repo_create_oauth_user (db : DB) (conc : DB → DB) (provider email name subj : String)
    (uid pid : Nat) : DB × Except PyErr User :=
  if email_exists db email then (db, .error (.emailExists email))
  else
    match commitCheck (oauth_create_state (conc db) provider email name subj uid pid) with
    | none => (oauth_create_state (conc db) provider email name subj uid pid,
        .ok (new_oauth_user email name uid))
    | some k =>
        (conc db, .error (if k.mentionsEmail then .emailExists email
                          else .database "OAuth user creation"))

/-- The fast-path lookup of authenticate_oauth_user: the owning user of an
existing OAuthProfile for (provider, subject), provided that user exists and
is active; an inactive owner yields none (fall through). -/
def oauth_fast_path (db : DB) (provider subj : String) : Option User :=
  match findOAuthProfile db provider subj with
  | some p =>
      match findUserById db p.user_id with
      | some u => if u.is_active then some u else none
      | none => none
  | none => none

/-- The user row after the implicit-linking promotion: auth_provider set to
MIXED, every other column untouched (the password hash in particular). -/
def mixedUser (u : User) : User :=
  ⟨u.id, u.email, u.name, u.hashed_password, .mixed, u.is_active⟩

/-- The candidate state the implicit-linking branch flushes at commit: the
promoted user row and the new oauth profile row. -/
def oauth_link_state (db : DB) (u : User) (provider subj : String) (pid : Nat) : DB :=
  ⟨db.users.map (fun v => if v.id = u.id then mixedUser u else v),
   db.profiles ++ [⟨pid, u.id, provider, subj⟩]⟩

/-- Embedding of UserRepository.authenticate_oauth_user.  Fast path: an
OAuthProfile for (provider, subject) whose owner is active is returned;
a missing owner or an inactive owner falls through.  Implicit linking: an
active user with the email gets a new OAuthProfile and auth_provider MIXED,
committed together; an IntegrityError at that commit is rolled back and
raised as DatabaseException("OAuth authentication").  Otherwise None. -/
def repo_authenticate_oauth_user (db : DB) (provider email subj : String) (pid : Nat) :
    DB × Except PyErr (Option User) :=
  match oauth_fast_path db provider subj with
  | some u => (db, .ok (some u))
  | none =>
      match get_active_user_by_email db email with
      | some u =>
          match commitCheck (oauth_link_state db u provider subj pid) with
          | none => (oauth_link_state db u provider subj pid, .ok (some (mixedUser u)))
          | some _ => (db, .error (.database "OAuth authentication"))
      | none => (db, .ok none)

/-- Embedding of GoogleOAuthService._find_or_create_oauth_user: the
repository resolution, then creation for a brand-new subject; any exception
from either repository call is converted to
ValidationException("Failed to process user information"). -/
def find_or_create_oauth_user (db : DB) (conc : DB → DB) (email name subj : String)
    (uid pid : Nat) : DB × Except PyErr User :=
  match repo_authenticate_oauth_user db "google" email subj pid with
  | (db', .ok (some u)) => (db', .ok u)
  | (db', .ok none) =>
      match repo_create_oauth_user db' conc "google" email name subj uid pid with
      | (db'', .ok u) => (db'', .ok u)
      | (db'', .error _) =>
          (db'', .error (.validation "Failed to process user information"))
  | (db', .error _) => (db', .error (.validation "Failed to process user information"))

/-- Response of the Google tokeninfo (introspection) endpoint: HTTP status
and the granted scope string. -/
structure TokenInfoResp where
  code : Nat
  scope : String
deriving DecidableEq, Repr

/-- Response of the Google userinfo (profile) endpoint. -/
structure UserInfoResp where
  code : Nat
  uid : String
  email : String
  verified_email : Bool
  name : String
deriving DecidableEq, Repr

/-- Either an HTTP response or an httpx transport/network error. -/
inductive Net (α : Type) where
  | resp (r : α)
  | transportError
deriving DecidableEq, Repr

/-- The behaviour of the provider during one validation: the response each
endpoint gives on the i-th loop attempt (0-based). -/
structure ProviderScript where
  tokenInfo : Nat → Net TokenInfoResp
  userInfo : Nat → Net UserInfoResp

/-- The validated profile the validator returns (GoogleUserInfo). -/
structure GoogleUserInfo where
  uid : String
  email : String
  verified_email : Bool
  name : String
deriving DecidableEq, Repr

/-- Embedding of GoogleOAuthService._verify_token_info.  Every non-200
introspection status, 5xx included, raises
AuthenticationException("Invalid Google token"); a transport error raises
AuthenticationException("Unable to verify Google token"); a 200 whose scope
string lacks the substring email or the substring profile raises
AuthenticationException("Insufficient permissions from Google"). -/
def verify_token_info (s : ProviderScript) (attempt : Nat) : Except PyErr Unit :=
  match s.tokenInfo attempt with
  | .transportError => .error (.authentication "Unable to verify Google token")
  | .resp r =>
      if r.code ≠ 200 then .error (.authentication "Invalid Google token")
      else if ¬ strContains r.scope "email" ∨ ¬ strContains r.scope "profile" then
        .error (.authentication "Insufficient permissions from Google")
      else .ok ()

/-- The retry loop body of GoogleOAuthService._validate_google_token.
fuel is max_retries minus attempt; the loop handlers catch only the httpx
errors of the userinfo call, so an AuthenticationException raised by
verify_token_info terminates the loop at once.  The second component is the
total backoff slept, in seconds (base_delay 1s doubled per attempt). -/
def validate_google_token_loop (s : ProviderScript) :
    Nat → Nat → Nat → Except PyErr GoogleUserInfo × Nat
  | 0, _, elapsed =>
      (.error (.authentication "Failed to validate Google token after retries"), elapsed)
  | fuel + 1, attempt, elapsed =>
      match verify_token_info s attempt with
      | .error e => (.error e, elapsed)
      | .ok () =>
          match s.userInfo attempt with
          | .transportError =>
              if fuel > 0 then
                validate_google_token_loop s fuel (attempt + 1) (elapsed + 2 ^ attempt)
              else
                (.error (.authentication "Unable to connect to Google services"), elapsed)
          | .resp r =>
              if r.code = 401 then
                (.error (.authentication "Invalid or expired Google token"), elapsed)
              else if 400 ≤ r.code then
                if 500 ≤ r.code ∧ fuel > 0 then
                  validate_google_token_loop s fuel (attempt + 1) (elapsed + 2 ^ attempt)
                else
                  (.error (.authentication "Failed to validate Google token"), elapsed)
              else if ¬ r.verified_email then
                (.error (.authentication "Google account email must be verified"), elapsed)
              else
                (.ok ⟨r.uid, r.email, r.verified_email, r.name⟩, elapsed)

/-- Embedding of GoogleOAuthService._validate_google_token: the loop with
max_retries = 3 attempts, starting at attempt 0 with no backoff slept. -/
def validate_google_token (s : ProviderScript) : Except PyErr GoogleUserInfo × Nat :=
  validate_google_token_loop s 3 0 0

/-- Whether an exception is an AuthenticationException (including its
subclasses), which authenticate_with_google re-raises unchanged. -/
def isAuthExc : PyErr → Bool
  | .authentication _ => true
  | .invalidCredentials _ => true
  | _ => false

/-- Embedding of GoogleOAuthService.authenticate_with_google: token
validation, identity resolution, token issuance.  AuthenticationExceptions
pass through; every other exception (including the resolver
ValidationException) is replaced by
AuthenticationException("Authentication failed due to server error"). -/
def authenticate_with_google (s : ProviderScript) (db : DB) (conc : DB → DB)
    (uid pid : Nat) (key now ttl : Nat) : DB × Except PyErr Jwt :=
  match (validate_google_token s).1 with
  | .error e =>
      (db, .error (if isAuthExc e then e
                   else .authentication "Authentication failed due to server error"))
  | .ok info =>
      match find_or_create_oauth_user db conc info.email info.name info.uid uid pid with
      | (db', .error e) =>
          (db', .error (if isAuthExc e then e
                        else .authentication "Authentication failed due to server error"))
      | (db', .ok u) =>
          match create_access_token
              [("sub", .jstr (toString u.id)), ("email", .jstr u.email)] key now ttl with
          | .ok t => (db', .ok t)
          | .error _ =>
              (db', .error (.authentication "Authentication failed due to server error"))

/-- The spec invariant for one user row: the password hash is absent iff the
auth provider is EXTERNAL (the GOOGLE value in this code base), and MIXED
implies the hash is present. -/
def userInvariant (u : User) : Prop :=
  (u.hashed_password = none ↔ u.auth_provider = .google) ∧
  (u.auth_provider = .mixed → u.hashed_password ≠ none)

/-- The spec invariant over the whole users table. -/
def dbInvariant (db : DB) : Prop :=
  ∀ u ∈ db.users, userInvariant u

/-- One execution of a public operation of the engine, relating the database
before to the database after: password registration, password login, or
external (Google) authentication with its implicit-linking and new-account
branches.  The external step runs sequentially (conc = id). -/
inductive AuthStep : DB → DB → Prop where
  | register (hashFn : String → String) (name email password : String)
      (uid key now ttl : Nat) (db : DB) :
      AuthStep db (service_register_user hashFn db name email password uid key now ttl).1
  | login (verify : String → String → Bool) (email password : String)
      (key now ttl : Nat) (db : DB) :
      AuthStep db (service_authenticate_user verify db email password key now ttl).1
  | oauth (s : ProviderScript) (uid pid key now ttl : Nat) (db : DB) :
      AuthStep db (authenticate_with_google s db id uid pid key now ttl).1

/-- The timing fields named by the round-trip claim: issued-at and expiry. -/
def timingKeys : List String := ["exp", "iat"]

/-- All the fields create_access_token actually adds: the timing fields plus
the token-type marker. -/
def issuerKeys : List String := ["exp", "iat", "type"]

/-- Drop the entries whose key is in the given list. -/
def stripKeys (ks : List String) (m : List (String × JVal)) : List (String × JVal) :=
  m.filter (fun kv => ¬ ks.contains kv.1)

/-- Concrete provider behaviour of spec Scenario C: the introspection
endpoint answers 500 on the first two attempts and 200 (with a sufficient
scope) on the third; the profile endpoint always answers 200 with a verified
email. -/
def scriptC2 : ProviderScript :=
  ⟨fun i => if i = 0 ∨ i = 1 then .resp ⟨500, ""⟩
            else .resp ⟨200, "openid email profile"⟩,
   fun _ => .resp ⟨200, "g-sub-1", "user@example.com", true, "Test User"⟩⟩

/-- Provider behaviour for the unverified-email scenario: introspection
succeeds with full scope, the profile comes back with verified_email false. -/
def scriptC5 : ProviderScript :=
  ⟨fun _ => .resp ⟨200, "openid email profile"⟩,
   fun _ => .resp ⟨200, "g-sub-9", "eve@example.com", false, "Eve X"⟩⟩

/-- The user row a concurrent request creates in the C4 race. -/
def userRace : User := ⟨1, "new@x.com", "A B", none, .google, true⟩

/-- The oauth profile row the concurrent request creates in the C4 race. -/
def profileRace : OAuthProfile := ⟨11, 1, "google", "g1"⟩

/-- The interleaved commit of the concurrent request in the C4 race: it wins
the insert for subject g1 / email new@x.com between the existence
check of this request and its commit. -/
def concRace : DB → DB :=
  fun db => ⟨db.users ++ [userRace], db.profiles ++ [profileRace]⟩

/-- An inactive external-only user for the C6 scenario. -/
def userC6 : User := ⟨1, "a@x.com", "Ana B", none, .google, false⟩

/-- The external identity already linked to the inactive C6 user. -/
def profC6 : OAuthProfile := ⟨10, 1, "google", "g1"⟩

/-- The database of the C6 scenario. -/
def dbC6 : DB := ⟨[userC6], [profC6]⟩

/-- A password user whose stored hash is below current policy, for C8. -/
def userC8 : User := ⟨1, "a@x.com", "Ana B", some "oldhash", .email, true⟩

/-- The database of the C8 scenario. -/
def dbC8 : DB := ⟨[userC8], []⟩

/-- A bcrypt oracle that accepts the C8 login. -/
def verifyC8 : String → String → Bool := fun _ _ => true

/-- A passlib needs_update oracle that reports every hash as below policy. -/
def needsUpdC8 : String → Bool := fun _ => true

/-- A password user with a healthy hash, shared by the C7 and C10 witnesses
and the C3 witness state. -/
def userC7 : User := ⟨1, "a@x.com", "Ana B", some "HASH", .email, true⟩

/-- The database of the C7 witness. -/
def dbC7 : DB := ⟨[userC7], []⟩

/-- An active external-only user (no password hash) for the C10 witness. -/
def userC10 : User := ⟨2, "g@x.com", "Gus H", none, .google, true⟩

/-- The database of the C10 witness. -/
def dbC10 : DB := ⟨[userC10], []⟩

/-- The input claims of the C9 counterexample. -/
def claimsC9 : List (String × JVal) := [("sub", .jstr "u1")]

/-- The token create_access_token issues from claimsC9 with key 7 at time 0
with a 60 second ttl. -/
def jwtC9 : Jwt :=
  ⟨[("sub", .jstr "u1"), ("exp", .jnum 60), ("iat", .jnum 0),
    ("type", .jstr "bearer")], 7⟩

/-! Helper lemmas (shared between several claim theorems). -/

/-- The dictionary built by validate_password_strength never carries the key
is_valid: its keys are valid and message in every branch. -/
theorem dictLookup_strength_is_valid (p : String) :
    dictLookup (validate_password_strength p) "is_valid" = none := by
  unfold validate_password_strength
  split <;> try rfl
  split <;> try rfl
  split <;> try rfl
  split <;> try rfl
  split <;> try rfl
  split <;> rfl

/-- The service-level strength check raises KeyError("is_valid") on every
input: the result dict of validate_password_strength has no is_valid key. -/
theorem service_strength_keyerror (p : String) :
    service_validate_password_strength p = .error (.keyError "is_valid") := by
  unfold service_validate_password_strength
  rw [dictLookup_strength_is_valid]

/-- Registration always fails: the KeyError of the strength check is wrapped
by the generic handler of register_user into
DatabaseException("user registration"), and the database is untouched. -/
theorem register_user_result (hashFn : String → String) (db : DB)
    (name email password : String) (uid key now ttl : Nat) :
    service_register_user hashFn db name email password uid key now ttl =
      (db, .error (.database "user registration")) := by
  unfold service_register_user
  rw [service_strength_keyerror]
  rfl

/-- Password login never mutates the database state of the model (the source
only touches updated_at on success). -/
theorem service_authenticate_user_fst (verify : String → String → Bool) (db : DB)
    (email password : String) (key now ttl : Nat) :
    (service_authenticate_user verify db email password key now ttl).1 = db := by
  unfold service_authenticate_user
  split
  · rfl
  · split <;> rfl

/-- C1: refuted (code bug).  The claim says register runs the strength check
then the email-uniqueness check, succeeds for a strong password with a fresh
email, and only ever fails with EmailAlreadyExists or the WeakPassword
validation error, never a generic storage/server error.  In the source,
AuthenticationService._validate_password_strength subscripts the strength
result with the key is_valid while validate_password_strength returns the
key valid, so every registration - weak or strong password, fresh or taken
email - raises KeyError, which register_user wraps into
DatabaseException("user registration"): a generic storage/server failure on
every input, and no registration ever succeeds or reaches the
email-uniqueness check. -/
theorem C1_register_always_storage_error (hashFn : String → String) (db : DB)
    (name email password : String) (uid key now ttl : Nat) :
    service_register_user hashFn db name email password uid key now ttl =
      (db, .error (.database "user registration")) :=
  register_user_result hashFn db name email password uid key now ttl

/-- C2: refuted (code bug).  On spec Scenario C (introspection answers 500,
500, then 200 with sufficient scope; the profile endpoint succeeds), the
claim says the validator retries with backoff and succeeds.  In the source,
_verify_token_info raises AuthenticationException("Invalid Google token")
for every non-200 introspection status, and the retry loop of
_validate_google_token only catches the httpx errors of the profile call, so
the validator fails on the very first 500 with zero retries and zero backoff
seconds slept. -/
theorem C2_introspection_500_not_retried :
    validate_google_token scriptC2 =
      (.error (.authentication "Invalid Google token"), 0) := rfl

/-- C7: confirmed.  A password login against an email that matches no active
user and a password login against an existing active user with a wrong
password both fail with the same InvalidCredentialsException carrying the
same default message "Email or password is incorrect": the repository
returns None for both causes and the service raises the exception at one
single site, so the two causes are indistinguishable to the caller. -/
theorem C7_login_failures_indistinguishable (verify : String → String → Bool)
    (db : DB) (e1 p1 e2 p2 hsh : String) (u : User) (key now ttl : Nat)
    (h1 : get_active_user_by_email db e1 = none)
    (h2 : get_active_user_by_email db e2 = some u)
    (h3 : u.hashed_password = some hsh)
    (h4 : verify_password verify p2 (some hsh) = false) :
    service_authenticate_user verify db e1 p1 key now ttl =
      (db, .error (.invalidCredentials "Email or password is incorrect")) ∧
    service_authenticate_user verify db e2 p2 key now ttl =
      (db, .error (.invalidCredentials "Email or password is incorrect")) := by
  constructor
  · simp [service_authenticate_user, repo_authenticate_user, h1]
  · simp [service_authenticate_user, repo_authenticate_user, h2, h3, h4]

/-- Witness for C7 at a concrete database: one active password user, an
unknown email on the left and the known email with a rejected password on
the right. -/
theorem C7_witness :
    service_authenticate_user (fun _ _ => false) dbC7 "b@x.com" "pw1" 1 0 60 =
      (dbC7, .error (.invalidCredentials "Email or password is incorrect")) ∧
    service_authenticate_user (fun _ _ => false) dbC7 "a@x.com" "pw2" 1 0 60 =
      (dbC7, .error (.invalidCredentials "Email or password is incorrect")) :=
  C7_login_failures_indistinguishable (fun _ _ => false) dbC7 "b@x.com" "pw1"
    "a@x.com" "pw2" "HASH" userC7 1 0 60 rfl rfl rfl rfl

/-- C10: confirmed.  For an active user whose stored hash is absent
(external-only account), password login returns exactly the same
InvalidCredentials failure as a wrong password, for every password and for
every bcrypt oracle - the quantification over the oracle shows password
verification is never consulted - and no other exception reaches the
caller. -/
theorem C10_external_only_login_same_failure (db : DB) (email : String) (u : User)
    (key now ttl : Nat)
    (h1 : get_active_user_by_email db email = some u)
    (h2 : u.hashed_password = none) :
    ∀ (verify : String → String → Bool) (password : String),
      service_authenticate_user verify db email password key now ttl =
        (db, .error (.invalidCredentials "Email or password is incorrect")) := by
  intro verify password
  simp [service_authenticate_user, repo_authenticate_user, h1, h2]

/-- Witness for C10: an active external-only user; even an oracle accepting
everything still yields InvalidCredentials. -/
theorem C10_witness :
    service_authenticate_user (fun _ _ => true) dbC10 "g@x.com" "anything" 1 0 60 =
      (dbC10, .error (.invalidCredentials "Email or password is incorrect")) :=
  C10_external_only_login_same_failure dbC10 "g@x.com" userC10 1 0 60 rfl rfl
    (fun _ _ => true) "anything"

/-- C8: refuted at this input.  The stored hash is below policy
(needs_rehash true), the login succeeds, yet the database after the login is
unchanged: no new hash was persisted before issuing the token, contradicting
the claimed transparent rehash. -/
theorem C8_counterexample :
    needs_rehash needsUpdC8 "oldhash" = true ∧
    (service_authenticate_user verifyC8 dbC8 "a@x.com" "Secret12" 1 0 60).1 = dbC8 ∧
    ((service_authenticate_user verifyC8 dbC8 "a@x.com" "Secret12" 1 0 60).2).isOk
      = true :=
  ⟨rfl, rfl, rfl⟩

/-- C8 amended: needs_rehash exists in core/security.py but the login flow
never calls it; a successful password login issues the token with the stored
password hash (and every other user column of the model) unchanged - the
source only updates the last-login timestamp. -/
theorem C8_login_never_rehashes (verify : String → String → Bool)
    (needsUpdate : String → Bool) (db : DB) (u : User) (hsh email password : String)
    (key now ttl : Nat)
    (h1 : get_active_user_by_email db email = some u)
    (h2 : u.hashed_password = some hsh)
    (h3 : needs_rehash needsUpdate hsh = true)
    (h4 : verify_password verify password (some hsh) = true) :
    (service_authenticate_user verify db email password key now ttl).1 = db ∧
    ((service_authenticate_user verify db email password key now ttl).2).isOk
      = true := by
  constructor
  · exact service_authenticate_user_fst verify db email password key now ttl
  · simp [service_authenticate_user, repo_authenticate_user, h1, h2, h4,
      create_token_for_user, create_access_token, Except.isOk, Except.toBool]

/-- Witness for the amended C8 at a concrete database with a below-policy
hash. -/
theorem C8_witness :
    (service_authenticate_user verifyC8 dbC8 "a@x.com" "Secret12" 2 5 60).1 = dbC8 ∧
    ((service_authenticate_user verifyC8 dbC8 "a@x.com" "Secret12" 2 5 60).2).isOk
      = true :=
  C8_login_never_rehashes verifyC8 needsUpdC8 dbC8 userC8 "oldhash" "a@x.com"
    "Secret12" 2 5 60 rfl rfl rfl rfl

/-- Setting a key makes it present with the written value. -/
theorem alLookup_alSet_self (m : List (String × JVal)) (k : String) (v : JVal) :
    alLookup (alSet m k v) k = some v := by
  induction m with
  | nil => simp [alSet, alLookup]
  | cons kv rest ih =>
      obtain ⟨k', v'⟩ := kv
      by_cases h : k' = k
      · simp [alSet, h, alLookup]
      · simp [alSet, h, alLookup, ih]

/-- Setting one key leaves the lookup of any other key unchanged. -/
theorem alLookup_alSet_ne (m : List (String × JVal)) (k : String) (v : JVal)
    (k2 : String) (h : k2 ≠ k) :
    alLookup (alSet m k v) k2 = alLookup m k2 := by
  induction m with
  | nil =>
      simp only [alSet, alLookup]
      rw [if_neg (fun hh : k = k2 => h hh.symm)]
  | cons kv rest ih =>
      obtain ⟨k', v'⟩ := kv
      by_cases hk : k' = k
      · subst hk
        simp only [alSet, if_pos rfl, alLookup]
        rw [if_neg (fun hh : k' = k2 => h (hh ▸ rfl)),
          if_neg (fun hh : k' = k2 => h (hh ▸ rfl))]
      · simp [alSet, hk, alLookup, ih]

/-- Stripping distributes over cons: the head survives iff its key is not
stripped. -/
theorem stripKeys_cons (ks : List String) (a : String) (b : JVal)
    (m : List (String × JVal)) :
    stripKeys ks ((a, b) :: m) =
      if a ∈ ks then stripKeys ks m else (a, b) :: stripKeys ks m := by
  by_cases h : a ∈ ks <;> simp [stripKeys, h]

/-- Setting a stripped key does not change the stripped payload. -/
theorem stripKeys_alSet (ks : List String) (m : List (String × JVal)) (k : String)
    (v : JVal) (h : k ∈ ks) :
    stripKeys ks (alSet m k v) = stripKeys ks m := by
  induction m with
  | nil => simp [alSet, stripKeys, h]
  | cons kv rest ih =>
      obtain ⟨k', v'⟩ := kv
      by_cases hk : k' = k
      · subst hk
        rw [show alSet ((k', v') :: rest) k' v = (k', v) :: rest by simp [alSet]]
        rw [stripKeys_cons, stripKeys_cons, if_pos h, if_pos h]
      · simp only [alSet, if_neg hk]
        rw [stripKeys_cons, stripKeys_cons, ih]

/-- C9: refuted at this input.  Issuing a token from the claims map
{sub: u1} and verifying it before expiry succeeds, but the returned payload
differs from the input claims even after discarding the timing fields
issued-at and expiry: the issuer also adds the non-timing entry
type: bearer. -/
theorem C9_counterexample :
    create_access_token claimsC9 7 0 60 = .ok jwtC9 ∧
    verify_token jwtC9 7 10 = some jwtC9.payload ∧
    stripKeys timingKeys jwtC9.payload ≠ stripKeys timingKeys claimsC9 := by
  refine ⟨rfl, rfl, ?_⟩
  decide

/-- C9 amended: for every non-empty claims map and every ttl, verifying a
token issued from those claims before the ttl elapses succeeds and returns a
payload equal to the input claims modulo the fields the issuer adds or
overwrites: the timing fields exp and iat and the token-type field
type: bearer. -/
theorem C9_roundtrip_modulo_issuer_fields (data : List (String × JVal))
    (hne : data ≠ []) (key now ttl t : Nat) (ht : t < now + ttl) :
    ∃ jwt, create_access_token data key now ttl = .ok jwt ∧
      verify_token jwt key t = some jwt.payload ∧
      stripKeys issuerKeys jwt.payload = stripKeys issuerKeys data := by
  have hempty : data.isEmpty = false := by
    cases data
    · exact absurd rfl hne
    · rfl
  refine ⟨⟨alSet (alSet (alSet data "exp" (.jnum (now + ttl))) "iat" (.jnum now))
    "type" (.jstr "bearer"), key⟩, ?_, ?_, ?_⟩
  · unfold create_access_token
    rw [hempty]
    rfl
  · unfold verify_token decode_token
    have hexp : alLookup (alSet (alSet (alSet data "exp" (.jnum (now + ttl)))
        "iat" (.jnum now)) "type" (.jstr "bearer")) "exp"
        = some (.jnum (now + ttl)) := by
      rw [alLookup_alSet_ne _ _ _ _ (by decide), alLookup_alSet_ne _ _ _ _ (by decide),
        alLookup_alSet_self]
    simp only [hexp]
    rw [if_neg (by simp), if_neg (Nat.not_lt.mpr (Nat.le_of_lt ht))]
  · rw [stripKeys_alSet _ _ _ _ (by decide), stripKeys_alSet _ _ _ _ (by decide),
      stripKeys_alSet _ _ _ _ (by decide)]

/-- Witness for the amended C9 at a concrete claims map, key and clock. -/
theorem C9_witness :
    ∃ jwt, create_access_token [("sub", JVal.jstr "u")] 1 0 10 = .ok jwt ∧
      verify_token jwt 1 3 = some jwt.payload ∧
      stripKeys issuerKeys jwt.payload =
        stripKeys issuerKeys [("sub", JVal.jstr "u")] :=
  C9_roundtrip_modulo_issuer_fields [("sub", JVal.jstr "u")] (by decide) 1 0 10 3
    (by decide)

/-- C4: refuted at this input.  Two concurrent requests race on the brand
new subject g1 / email new@x.com; the concurrent one commits first
(concRace), so the insert of this request hits a uniqueness violation.  The
resolver does not re-run the fast-path lookup and does not return the
existing user userRace: it surfaces
ValidationException("Failed to process user information"). -/
theorem C4_counterexample :
    find_or_create_oauth_user DB.empty concRace "new@x.com" "A B" "g1" 2 12 =
      (⟨[userRace], [profileRace]⟩,
        .error (.validation "Failed to process user information")) ∧
    (find_or_create_oauth_user DB.empty concRace "new@x.com" "A B" "g1" 2 12).2 ≠
      .ok userRace := by
  refine ⟨rfl, ?_⟩
  decide

/-- C4 amended: when the fast path and the email lookup find nothing but the
insert of the new user and identity hits a constraint violation at commit
(because a concurrent request committed first), create_oauth_user rolls back
and raises (EmailExistsException or DatabaseException depending on the
violation message), and _find_or_create_oauth_user surfaces
ValidationException("Failed to process user information") to its caller
instead of re-running the fast-path lookup and returning the user the winner
created. -/
theorem C4_uniqueness_violation_surfaces_error (db : DB) (conc : DB → DB)
    (email name subj : String) (uid pid : Nat) (k : IntegrityKind)
    (h1 : findOAuthProfile db "google" subj = none)
    (h2 : get_active_user_by_email db email = none)
    (h3 : email_exists db email = false)
    (h4 : commitCheck (oauth_create_state (conc db) "google" email name subj uid pid)
        = some k) :
    find_or_create_oauth_user db conc email name subj uid pid =
      (conc db, .error (.validation "Failed to process user information")) := by
  have hfast : oauth_fast_path db "google" subj = none := by
    simp [oauth_fast_path, h1]
  cases k <;>
    simp [find_or_create_oauth_user, repo_authenticate_oauth_user, hfast, h2,
      repo_create_oauth_user, h3, h4, IntegrityKind.mentionsEmail]

/-- Witness for the amended C4: the concrete race of C4_counterexample. -/
theorem C4_witness :
    find_or_create_oauth_user DB.empty concRace "new@x.com" "A B" "g1" 2 12 =
      (concRace DB.empty,
        .error (.validation "Failed to process user information")) :=
  C4_uniqueness_violation_surfaces_error DB.empty concRace "new@x.com" "A B" "g1"
    2 12 .emailUnique rfl rfl rfl rfl

/-- C5: confirmed.  When the introspection call succeeds but the profile
comes back 200 with verified_email false, the whole external authentication
fails with AuthenticationException("Google account email must be verified")
- the unverified-email kind - and the database is returned unchanged: no
User row and no OAuthProfile row is created or modified. -/
theorem C5_unverified_email_rejected_no_mutation (s : ProviderScript) (db : DB)
    (conc : DB → DB) (uid pid key now ttl : Nat) (r : UserInfoResp)
    (h1 : verify_token_info s 0 = .ok ())
    (h2 : s.userInfo 0 = .resp r)
    (h3 : r.code = 200)
    (h4 : r.verified_email = false) :
    authenticate_with_google s db conc uid pid key now ttl =
      (db, .error (.authentication "Google account email must be verified")) := by
  have hval : (validate_google_token s).1 =
      .error (.authentication "Google account email must be verified") := by
    unfold validate_google_token
    simp [validate_google_token_loop, h1, h2, h3, h4]
  unfold authenticate_with_google
  rw [hval]
  rfl

/-- Witness for C5 at a concrete script and empty database. -/
theorem C5_witness :
    authenticate_with_google scriptC5 DB.empty id 1 11 1 0 60 =
      (DB.empty, .error (.authentication "Google account email must be verified")) :=
  C5_unverified_email_rejected_no_mutation scriptC5 DB.empty id 1 11 1 0 60
    ⟨200, "g-sub-9", "eve@example.com", false, "Eve X"⟩ rfl rfl rfl rfl

/-- C6: refuted at this input.  An external identity exists for (google, g1)
but its owner is inactive.  Resolution does not stop with an account
disabled authorization failure: the fast path treats the inactive owner as
not found, falls through past the linking branch (which only sees active
users), reaches create_oauth_user, whose email-exists check fails, and the
caller receives ValidationException("Failed to process user information"). -/
theorem C6_counterexample :
    find_or_create_oauth_user dbC6 id "a@x.com" "Ana B" "g1" 2 11 =
      (dbC6, .error (.validation "Failed to process user information")) ∧
    (find_or_create_oauth_user dbC6 id "a@x.com" "Ana B" "g1" 2 11).2 ≠
      .error (.accountDisabled "User account is disabled") := by
  refine ⟨rfl, ?_⟩
  decide

/-- C6 amended: when the owner of the fast-path identity is inactive, the
resolver falls through (inactive is treated like not-found); the linking
branch finds no active user either, and with the email of the owner still
registered, create_oauth_user raises EmailExistsException, surfaced as
ValidationException("Failed to process user information") - not an
account-disabled authorization failure - with the database unchanged. -/
theorem C6_inactive_fast_path_falls_through (db : DB) (conc : DB → DB)
    (email name subj : String) (uid pid : Nat) (p : OAuthProfile) (u : User)
    (h1 : findOAuthProfile db "google" subj = some p)
    (h2 : findUserById db p.user_id = some u)
    (h3 : u.is_active = false)
    (h4 : get_active_user_by_email db email = none)
    (h5 : email_exists db email = true) :
    find_or_create_oauth_user db conc email name subj uid pid =
      (db, .error (.validation "Failed to process user information")) := by
  have hfast : oauth_fast_path db "google" subj = none := by
    simp [oauth_fast_path, h1, h2, h3]
  simp [find_or_create_oauth_user, repo_authenticate_oauth_user, hfast, h4,
    repo_create_oauth_user, h5]

/-- Witness for the amended C6: the concrete inactive-owner database. -/
theorem C6_witness :
    find_or_create_oauth_user dbC6 id "a@x.com" "Ana B" "g1" 3 12 =
      (dbC6, .error (.validation "Failed to process user information")) :=
  C6_inactive_fast_path_falls_through dbC6 id "a@x.com" "Ana B" "g1" 3 12
    profC6 userC6 rfl rfl rfl rfl rfl

/-- A committed state passed the check constraint for every user row. -/
theorem commitCheck_none_all_check (db : DB) (h : commitCheck db = none) :
    db.users.all passwordProviderCheck = true := by
  by_contra hfalse
  have hb : db.users.all passwordProviderCheck = false := by
    cases hb2 : db.users.all passwordProviderCheck
    · rfl
    · exact absurd hb2 hfalse
  unfold commitCheck at h
  rw [hb] at h
  split at h
  · simp at h
  · simp at h

/-- Every state a successful commit accepts satisfies the password/provider
invariant, because the check constraint is re-validated on every row. -/
theorem commitCheck_none_invariant (db : DB) (h : commitCheck db = none) :
    dbInvariant db := by
  have hall := commitCheck_none_all_check db h
  intro u hu
  have hc : passwordProviderCheck u = true := by
    rw [List.all_eq_true] at hall
    simpa using hall u hu
  obtain ⟨i, em, nm, hp, ap, act⟩ := u
  cases ap <;> cases hp <;>
    simp_all [userInvariant, passwordProviderCheck]

/-- The repository-level OAuth resolution preserves the invariant: the
non-mutating branches return the input state, and the linking branch only
commits a state the check constraint accepts. -/
theorem repo_authenticate_oauth_user_invariant (db : DB)
    (provider email subj : String) (pid : Nat) (hinv : dbInvariant db) :
    dbInvariant (repo_authenticate_oauth_user db provider email subj pid).1 := by
  unfold repo_authenticate_oauth_user
  split
  · exact hinv
  · split
    · split
      next heq => exact commitCheck_none_invariant _ heq
      next => exact hinv
    · exact hinv

/-- OAuth user creation preserves the invariant whenever the interleaved
concurrent commit does: the inserted state is only kept when the commit
check accepts it, and a rollback restores the concurrently committed
state. -/
theorem repo_create_oauth_user_invariant (db : DB) (conc : DB → DB)
    (provider email name subj : String) (uid pid : Nat) (hinv : dbInvariant db)
    (hconc : ∀ d, dbInvariant d → dbInvariant (conc d)) :
    dbInvariant (repo_create_oauth_user db conc provider email name subj uid pid).1 := by
  unfold repo_create_oauth_user
  split
  · exact hinv
  · split
    next heq => exact commitCheck_none_invariant _ heq
    next => exact hconc db hinv

/-- The resolver preserves the invariant. -/
theorem find_or_create_oauth_user_invariant (db : DB) (conc : DB → DB)
    (email name subj : String) (uid pid : Nat) (hinv : dbInvariant db)
    (hconc : ∀ d, dbInvariant d → dbInvariant (conc d)) :
    dbInvariant (find_or_create_oauth_user db conc email name subj uid pid).1 := by
  have hrepo := repo_authenticate_oauth_user_invariant db "google" email subj pid hinv
  unfold find_or_create_oauth_user
  split
  next db2 u heq =>
      rw [heq] at hrepo
      exact hrepo
  next db2 heq =>
      rw [heq] at hrepo
      have hcreate := repo_create_oauth_user_invariant db2 conc "google" email name
        subj uid pid hrepo hconc
      split
      next db3 u2 heq2 =>
          rw [heq2] at hcreate
          exact hcreate
      next db3 heq2 =>
          rw [heq2] at hcreate
          exact hcreate
  next db2 heq =>
      rw [heq] at hrepo
      exact hrepo

/-- The full external authentication preserves the invariant. -/
theorem authenticate_with_google_invariant (s : ProviderScript) (db : DB)
    (conc : DB → DB) (uid pid key now ttl : Nat) (hinv : dbInvariant db)
    (hconc : ∀ d, dbInvariant d → dbInvariant (conc d)) :
    dbInvariant (authenticate_with_google s db conc uid pid key now ttl).1 := by
  unfold authenticate_with_google
  split
  · exact hinv
  · next info heq =>
      have hres := find_or_create_oauth_user_invariant db conc info.email info.name
        info.uid uid pid hinv hconc
      split
      next db2 e heq2 =>
          rw [heq2] at hres
          exact hres
      next db2 u heq2 =>
          rw [heq2] at hres
          split <;> exact hres

/-- C3: confirmed.  Every public operation of the engine - password
registration, password login, and external authentication with its implicit
linking and new-account branches - preserves the invariant that the password
hash is absent iff auth_provider is EXTERNAL (GOOGLE here) and that MIXED
implies the hash is present.  The linking branch cannot commit a MIXED user
without a hash because the user_password_provider_check constraint rejects
the commit and the session is rolled back. -/
theorem C3_invariant_preserved (db db2 : DB) (hinv : dbInvariant db)
    (hstep : AuthStep db db2) : dbInvariant db2 := by
  cases hstep with
  | register hashFn name email password uid key now ttl =>
      rw [register_user_result]
      exact hinv
  | login verify email password key now ttl =>
      rw [service_authenticate_user_fst]
      exact hinv
  | oauth s uid pid key now ttl =>
      exact authenticate_with_google_invariant s db id uid pid key now ttl hinv
        (fun _ hd => hd)

/-- Witness for C3: a concrete login step from a concrete invariant-holding
state. -/
theorem C3_witness :
    dbInvariant (service_authenticate_user (fun _ _ => false) dbC7 "a@x.com"
      "badpw" 1 0 60).1 :=
  C3_invariant_preserved dbC7 _
    (by
      intro u hu
      simp only [dbC7, List.mem_singleton] at hu
      subst hu
      simp [userInvariant, userC7])
    (AuthStep.login (fun _ _ => false) "a@x.com" "badpw" 1 0 60 dbC7)

end IdeaFly
